import Mathlib

/-!
# Verification of the math_quiz server (server.js)

A shallow embedding of the request-handling and scoring logic of
`server.js`: the two Mongo collections become lists of records, each
Express route handler becomes a pure function from a database state and a
request to a result and a new database state, JS `parseInt` becomes an
`Option Int`-valued parser (with `none` playing the role of `NaN`), and
Mongoose's ObjectId cast failure becomes an explicit validity check on the
id string.  Timestamps (`Date.now()` / `new Date()`) are passed in as a
`now : Nat` parameter; the ObjectId MongoDB would assign to a freshly
created document is passed in as a `newId : String` parameter.
-/

/-- A solver record inside a quiz's `solvers` array
(`ProblemSchema.solvers`, server.js lines 47-52). -/
structure SolverRec where
  userId : String
  name : String
  isCorrect : Bool
  solvedAt : Nat
deriving DecidableEq, Repr

/-- A quiz document (`ProblemSchema`, server.js lines 43-53). -/
structure Problem where
  date : String
  question : String
  answer : Int
  solvers : List SolverRec
deriving DecidableEq, Repr

/-- A user document (`UserSchema`, server.js lines 33-40).  The Mongo
`_id` is modelled as a `String`; `latestQuizDate` is a nullable `Date`,
modelled as `Option Nat`. -/
structure User where
  _id : String
  userId : String
  name : String
  password : Option String
  isAdmin : Bool
  score : Nat
  latestQuizDate : Option Nat
deriving DecidableEq, Repr

/-- A user record after destructuring away `password` from
`user.toObject()`: the same fields as `User` minus `password`
(server.js lines 79, 92). -/
structure SanUser where
  _id : String
  userId : String
  name : String
  isAdmin : Bool
  score : Nat
  latestQuizDate : Option Nat
deriving DecidableEq, Repr

/-- Strip the password from a user before sending it to the client. -/
def sanitize (u : User) : SanUser :=
  ⟨u._id, u.userId, u.name, u.isAdmin, u.score, u.latestQuizDate⟩

/-- The whole persistent state: the `User` and `Problem` collections. -/
structure DB where
  users : List User
  problems : List Problem
deriving DecidableEq, Repr

/-! ## JS `parseInt` (server.js line 152) -/

/-- Decimal digit value of a character, `none` if not a digit. -/
def digitVal (c : Char) : Option Nat :=
  if '0' ≤ c ∧ c ≤ '9' then some (c.toNat - 48) else none

/-- Hexadecimal digit value of a character, `none` if not a hex digit. -/
def hexVal (c : Char) : Option Nat :=
  if '0' ≤ c ∧ c ≤ '9' then some (c.toNat - 48)
  else if 'a' ≤ c ∧ c ≤ 'f' then some (c.toNat - 87)
  else if 'A' ≤ c ∧ c ≤ 'F' then some (c.toNat - 55)
  else none

/-- Accumulate leading digits (in base `base`, read through `f`) of a
character list; the accumulator is `none` while no digit has been seen
(JS: no digits at all means `NaN`).  Parsing stops at the first
non-digit, as `parseInt` does. -/
def parseDigits (f : Char → Option Nat) (base : Nat) :
    List Char → Option Nat → Option Nat
  | [], acc => acc
  | c :: cs, acc =>
    match f c with
    | none => acc
    | some d => parseDigits f base cs (some (acc.getD 0 * base + d))

/-- JS `parseInt(s)` with no radix argument: skip leading whitespace, an
optional sign, an optional `0x`/`0X` hex prefix, then read leading digits;
`none` models `NaN` (no digits found). -/
def jsParseInt (s : String) : Option Int :=
  let cs := s.toList.dropWhile fun c =>
    c = ' ' ∨ c = '\t' ∨ c = '\n' ∨ c = '\r'
  let sign : Int := match cs with
    | '-' :: _ => -1
    | _ => 1
  let cs := match cs with
    | '-' :: rest => rest
    | '+' :: rest => rest
    | _ => cs
  let (f, base, cs) := match cs with
    | '0' :: 'x' :: rest => (hexVal, 16, rest)
    | '0' :: 'X' :: rest => (hexVal, 16, rest)
    | _ => (digitVal, 10, cs)
  match parseDigits f base cs none with
  | none => none
  | some n => some (sign * n)

/-- `problem.answer === parseInt(answer)` (server.js line 152).  `NaN`
(modelled by `none`) compares unequal to every number. -/
def judge (stored : Int) (raw : String) : Bool :=
  jsParseInt raw == some stored

/-! ## Lookups and updates on the collections -/

/-- `Problem.findOne(\x7b date \x7d)`: first quiz whose `date` matches. -/
def findOneProblem (db : DB) (d : String) : Option Problem :=
  db.problems.find? fun p => p.date == d

/-- `User.findById(id)` after a successful ObjectId cast: first user whose
`_id` matches. -/
def findUserById (db : DB) (i : String) : Option User :=
  db.users.find? fun u => u._id == i

/-- `User.findOne(\x7b name \x7d)`: first user whose `name` matches. -/
def findOneByName (db : DB) (n : String) : Option User :=
  db.users.find? fun u => u.name == n

/-- `problem.save()`: write back the (date-keyed) quiz document. -/
def updateProblemByDate (db : DB) (d : String) (p' : Problem) : DB :=
  { db with problems := db.problems.map fun q => if q.date == d then p' else q }

/-- `user.save()`: write back the (id-keyed) user document. -/
def updateUserById (db : DB) (i : String) (u' : User) : DB :=
  { db with users := db.users.map fun v => if v._id == i then u' else v }

/-- Mongoose accepts a 24-character hex string as an ObjectId; anything
else makes `findById` throw a CastError. -/
def isHexChar (c : Char) : Bool :=
  ('0' ≤ c ∧ c ≤ '9') ∨ ('a' ≤ c ∧ c ≤ 'f') ∨ ('A' ≤ c ∧ c ≤ 'F')

/-- Well-formedness of an ObjectId string. -/
def isValidObjectId (s : String) : Bool :=
  s.toList.length == 24 && s.toList.all isHexChar

/-- The message of the CastError thrown by `User.findById` on a malformed
id, surfaced verbatim by the catch-all (server.js lines 172-174). -/
def castErrMsg (v : String) : String :=
  "Cast to ObjectId failed for value " ++ v ++ " at path _id for model User"

/-! ## Route: POST /api/problems/:date/solve (server.js lines 137-175) -/

/-- Outcome of the solve route: 404, 400 already-solved, 200 success
payload, or 500. -/
inductive SolveResult where
  | notFound
  | alreadySolved
  | ok (isCorrect : Bool) (newScore : Nat)
  | serverError (msg : String)
deriving DecidableEq, Repr

/-- The solve handler.  `d` is the `:date` path parameter, `uid` and `raw`
the `userId` and `answer` body fields (the submitted answer as the string
`parseInt` receives), `now` the current time.  Mirrors server.js lines
137-175: look up quiz and user (a malformed `uid` makes `findById` throw,
caught as a 500), 404 if either is missing, 400 if the user already
appears in `solvers`, otherwise append a solver record, and on a correct
answer increment the score and stamp `latestQuizDate`. -/
def solve (db : DB) (d : String) (uid : String) (raw : String) (now : Nat) :
    SolveResult × DB :=
  if isValidObjectId uid then
    match findOneProblem db d, findUserById db uid with
    | some problem, some user =>
      if problem.solvers.any fun s => s.userId == user._id then
        (.alreadySolved, db)
      else
        let isCorrect := judge problem.answer raw
        let srec : SolverRec := ⟨user._id, user.name, isCorrect, now⟩
        let problem' := { problem with solvers := problem.solvers ++ [srec] }
        let db1 := updateProblemByDate db d problem'
        if isCorrect then
          let user' := { user with score := user.score + 1,
                                   latestQuizDate := some now }
          (.ok true user'.score, updateUserById db1 uid user')
        else
          (.ok false user.score, db1)
    | _, _ => (.notFound, db)
  else
    (.serverError (castErrMsg uid), db)

/-! ## Route: POST /api/problems (server.js lines 122-134) -/

/-- Outcome of quiz creation: 400 missing field, 409 duplicate date,
201 created. -/
inductive CreateResult where
  | badRequest
  | conflict
  | created (p : Problem)
deriving DecidableEq, Repr

/-- JS truthiness of an optional string body field (`undefined` and `""`
are falsy). -/
def truthyStr : Option String → Bool
  | none => false
  | some s => s != ""

/-- JS truthiness of an optional integer body field (`undefined` and `0`
are falsy). -/
def truthyInt : Option Int → Bool
  | none => false
  | some n => n != 0

/-- The create-quiz handler.  `if (!date || !question || !answer)` is the
JS truthiness test on the three body fields; a duplicate `date` makes
`Problem.create` throw E11000, answered with 409. -/
def createProblem (db : DB) (date? question? : Option String)
    (answer? : Option Int) : CreateResult × DB :=
  if truthyStr date? && truthyStr question? && truthyInt answer? then
    match date?, question?, answer? with
    | some d, some q, some a =>
      if db.problems.any fun p => p.date == d then
        (.conflict, db)
      else
        (.created ⟨d, q, a, []⟩,
         { db with problems := db.problems ++ [⟨d, q, a, []⟩] })
    | _, _, _ => (.badRequest, db)
  else
    (.badRequest, db)

/-! ## Route: POST /api/users/login (server.js lines 61-84) -/

/-- Outcome of login: 400 missing name, 200 sanitized user, 500. -/
inductive LoginResult where
  | badRequest
  | okUser (u : SanUser)
  | serverError (msg : String)
deriving DecidableEq, Repr

/-- `User.create(u)`: fails (E11000) if a stored user already has the same
`_id` or the same `userId` (both carry unique indexes); otherwise appends. -/
def createUser (db : DB) (u : User) : Except String DB :=
  if db.users.any fun v => v._id == u._id || v.userId == u.userId then
    .error "E11000 duplicate key error collection users"
  else
    .ok { db with users := db.users ++ [u] }

/-- The login-or-register handler.  `name?` is the `name` body field
(`none` for absent), `isAdminInit` the bootstrap flag, `now` feeds
`Date.now()` in the generated `userId`, and `newId` is the ObjectId the
store would assign on creation. -/
def login (db : DB) (name? : Option String) (isAdminInit : Bool)
    (now : Nat) (newId : String) : LoginResult × DB :=
  match name? with
  | none => (.badRequest, db)
  | some name =>
    if name = "" then (.badRequest, db)
    else
      match findOneByName db name with
      | some u => (.okUser (sanitize u), db)
      | none =>
        let newUser : User :=
          if name = "관리자" ∧ isAdminInit = true then
            ⟨newId, "1234aa", name, some "wj211@", true, 0, none⟩
          else
            ⟨newId, name ++ toString now, name, none, false, 0, none⟩
        match createUser db newUser with
        | .error m => (.serverError m, db)
        | .ok db' => (.okUser (sanitize newUser), db')

/-! ## Route: GET /api/users (server.js lines 102-109) -/

/-- `.sort(\x7b score: -1, latestQuizDate: 1 \x7d)` as a Boolean relation:
`a` may come before `b` iff `a`'s score is higher, or the scores tie and
`a`'s `latestQuizDate` is not later (Mongo sorts the absent/null date
first on an ascending key). -/
def lbLE (a b : User) : Bool :=
  b.score < a.score ||
    (a.score == b.score &&
      match a.latestQuizDate, b.latestQuizDate with
      | none, _ => true
      | some _, none => false
      | some x, some y => x ≤ y)

/-- The leaderboard ordering as a `Prop`-valued relation. -/
def LbLE (a b : User) : Prop := lbLE a b = true

instance : DecidableRel LbLE := fun a b => instDecidableEqBool (lbLE a b) true

instance : IsTotal User LbLE where
  total a b := by
    unfold LbLE lbLE
    rcases a.latestQuizDate with _ | x <;> rcases b.latestQuizDate with _ | y <;>
      simp [Bool.or_eq_true, Bool.and_eq_true, beq_iff_eq, decide_eq_true_eq] <;>
      omega

instance : IsTrans User LbLE where
  trans a b c := by
    unfold LbLE lbLE
    rcases a.latestQuizDate with _ | x <;> rcases b.latestQuizDate with _ | y <;>
      rcases c.latestQuizDate with _ | z <;>
      simp [Bool.or_eq_true, Bool.and_eq_true, beq_iff_eq, decide_eq_true_eq] <;>
      omega

/-- `User.find(\x7b isAdmin: false \x7d).sort(...)`: the non-admin users in
leaderboard order. -/
def leaderboardUsers (db : DB) : List User :=
  List.insertionSort LbLE (db.users.filter fun u => u.isAdmin == false)

/-- The leaderboard route: sorted non-admin users with `.select('-password')`
applied. -/
def getUsers (db : DB) : List SanUser :=
  (leaderboardUsers db).map sanitize

/-! ## Invariant: at most one solver record per user id per quiz -/

/-- Every quiz's `solvers` list mentions each user id at most once. -/
def SolversNodup (db : DB) : Prop :=
  ∀ p ∈ db.problems, (p.solvers.map SolverRec.userId).Nodup

instance (db : DB) : Decidable (SolversNodup db) := by
  unfold SolversNodup
  infer_instance

/-! ## Concrete states used by the witnesses -/

/-- A sample ordinary user with a syntactically valid ObjectId. -/
def wUser : User :=
  ⟨"aaaaaaaaaaaaaaaaaaaaaaaa", "u1", "Kim", none, false, 0, none⟩

/-- A sample quiz with stored answer 7 and no solvers yet. -/
def wProblem : Problem := ⟨"2025-01-01", "3+4=?", 7, []⟩

/-- One user, one unsolved quiz. -/
def wDB : DB := ⟨[wUser], [wProblem]⟩

/-- A quiz already solved by `wUser`. -/
def wProblemSolved : Problem :=
  ⟨"2025-01-02", "1+1=?", 2, [⟨"aaaaaaaaaaaaaaaaaaaaaaaa", "Kim", true, 50⟩]⟩

/-- One user, one quiz that this user has already solved. -/
def wDB2 : DB := ⟨[wUser], [wProblemSolved]⟩

/-- The user the first witness login creates for the name `bob` at time 5. -/
def wBobUser : User :=
  ⟨"bbbbbbbbbbbbbbbbbbbbbbbb", "bob5", "bob", none, false, 0, none⟩

/-- The state after that first login on an empty database. -/
def wDBbob : DB := ⟨[wBobUser], []⟩

/-! ## Helper lemmas -/

/-- A quiz found by date has that date. -/
theorem findOneProblem_date {db : DB} {d : String} {p : Problem}
    (h : findOneProblem db d = some p) : p.date = d := by
  have := List.find?_some h
  simpa [beq_iff_eq] using this

/-- A quiz found by date is one of the stored quizzes. -/
theorem findOneProblem_mem {db : DB} {d : String} {p : Problem}
    (h : findOneProblem db d = some p) : p ∈ db.problems :=
  List.mem_of_find?_eq_some h

/-- A user found by id has that id. -/
theorem findUserById_id {db : DB} {i : String} {u : User}
    (h : findUserById db i = some u) : u._id = i := by
  have := List.find?_some h
  simpa [beq_iff_eq] using this

/-- `find?` skips a prefix in which nothing matches. -/
theorem find?_append_of_none {α : Type} (p : α → Bool) (l₁ l₂ : List α)
    (h : l₁.find? p = none) : (l₁ ++ l₂).find? p = l₂.find? p := by
  induction l₁ with
  | nil => rfl
  | cons x xs ih =>
    rw [List.find?_eq_none] at h
    have hx : p x = false := by
      have := h x (by simp)
      simpa using this
    have hxs : xs.find? p = none := by
      rw [List.find?_eq_none]
      intro a ha
      exact h a (by simp [ha])
    simpa [List.find?_cons, hx] using ih hxs

/-- After an id-keyed write-back, looking the id up returns the new
document (provided the id was present before and the new document keeps
it). -/
theorem find?_update_by_id (l : List User) (i : String) (u u' : User)
    (h : l.find? (fun v => v._id == i) = some u) (h' : u'._id = i) :
    (l.map fun v => if v._id == i then u' else v).find?
      (fun v => v._id == i) = some u' := by
  induction l with
  | nil => simp at h
  | cons x xs ih =>
    by_cases hx : x._id = i
    · simp [List.find?_cons, hx, h']
    · have hx' : (x._id == i) = false := by simpa [beq_iff_eq] using hx
      rw [List.find?_cons_of_neg _ (by simp [hx'])] at h
      simp only [List.map_cons, hx', if_neg (by simpa [beq_iff_eq] using hx)]
      rw [List.find?_cons_of_neg _ (by simp [hx'])]
      exact ih h

/-- After a date-keyed write-back, looking the date up returns the new
quiz (provided the date was present before and the new quiz keeps it). -/
theorem find?_update_by_date (l : List Problem) (d : String) (p p' : Problem)
    (h : l.find? (fun q => q.date == d) = some p) (h' : p'.date = d) :
    (l.map fun q => if q.date == d then p' else q).find?
      (fun q => q.date == d) = some p' := by
  induction l with
  | nil => simp at h
  | cons x xs ih =>
    by_cases hx : x.date = d
    · simp [List.find?_cons, hx, h']
    · have hx' : (x.date == d) = false := by simpa [beq_iff_eq] using hx
      rw [List.find?_cons_of_neg _ (by simp [hx'])] at h
      simp only [List.map_cons, hx', if_neg (by simpa [beq_iff_eq] using hx)]
      rw [List.find?_cons_of_neg _ (by simp [hx'])]
      exact ih h

/-! ## Claim theorems -/

/-- C10: a solve call whose `userId` is not a well-formed ObjectId is
answered with the generic 500 carrying the cast failure's message — not
with the 404 — and the state is untouched: no solver record is appended
and no score changes. -/
theorem solve_malformed_id (db : DB) (d uid raw : String) (now : Nat)
    (h : isValidObjectId uid = false) :
    solve db d uid raw now = (.serverError (castErrMsg uid), db) ∧
    (SolveResult.serverError (castErrMsg uid)) ≠ SolveResult.notFound := by
  refine ⟨?_, by simp⟩
  unfold solve
  rw [h]
  simp

/-- Closed instance of `solve_malformed_id` at the 7-character id
`notanid`. -/
theorem solve_malformed_id_witness :
    solve wDB "2025-01-01" "notanid" "7" 100 =
      (.serverError (castErrMsg "notanid"), wDB) :=
  (solve_malformed_id wDB "2025-01-01" "notanid" "7" 100 (by decide)).1

/-- C4: when the quiz looked up by date or the user looked up by (a
well-formed) id is absent, solve answers 404 and leaves the state
unchanged: no solver record is appended and no user's score or
`latestQuizDate` changes. -/
theorem solve_not_found (db : DB) (d uid raw : String) (now : Nat)
    (hv : isValidObjectId uid = true)
    (h : findOneProblem db d = none ∨ findUserById db uid = none) :
    solve db d uid raw now = (.notFound, db) := by
  unfold solve
  rw [hv]
  rcases h with h | h
  · rw [h]
    simp
  · rw [h]
    rcases findOneProblem db d with _ | p <;> simp

/-- Closed instance of `solve_not_found`: solving a date that has no quiz
(on `wDB`, whose only quiz is dated 2025-01-01). -/
theorem solve_not_found_witness :
    solve wDB "2099-12-31" "aaaaaaaaaaaaaaaaaaaaaaaa" "7" 100 =
      (.notFound, wDB) :=
  solve_not_found wDB "2099-12-31" "aaaaaaaaaaaaaaaaaaaaaaaa" "7" 100
    (by decide) (Or.inl (by decide))

/-- C9: solve compares `parseInt` of the submission against the stored
integer answer, and a non-numeric submission (one whose parse is the
`NaN` sentinel, modelled as `none`) is judged unequal to every stored
answer, so every completed solve on such a submission reports
`isCorrect = false`. -/
theorem solve_nonnumeric_incorrect (stored : Int) (raw : String)
    (h : jsParseInt raw = none) :
    judge stored raw = false ∧
    ∀ (db : DB) (d uid : String) (now : Nat) (isC : Bool) (n : Nat)
      (st : DB), solve db d uid raw now = (.ok isC n, st) → isC = false := by
  have hj : ∀ a : Int, judge a raw = false := by
    intro a
    unfold judge
    rw [h]
    rfl
  refine ⟨hj stored, ?_⟩
  intro db d uid now isC n st hs
  unfold solve at hs
  split at hs
  · split at hs
    · rename_i problem user heqp hequ
      split at hs
      · exact absurd (congrArg Prod.fst hs) (by simp)
      · simp only [hj problem.answer] at hs
        split at hs
        · simp_all
        · have := congrArg Prod.fst hs
          simp only at this
          exact (SolveResult.ok.injEq _ _ _ _ ▸ this).1.symm
    · exact absurd (congrArg Prod.fst hs) (by simp)
  · exact absurd (congrArg Prod.fst hs) (by simp)

/-- Closed instance of `solve_nonnumeric_incorrect`: the submission `abc`
is judged incorrect against the stored answer 7, and a concrete solve
call with it reports `isCorrect = false`. -/
theorem solve_nonnumeric_incorrect_witness :
    judge 7 "abc" = false ∧
    (solve wDB "2025-01-01" "aaaaaaaaaaaaaaaaaaaaaaaa" "abc" 100).1 =
      .ok false 0 :=
  ⟨(solve_nonnumeric_incorrect 7 "abc" (by decide)).1, by decide⟩

/-- C1: a first-time solve by an existing user with a submission parsing
equal to the stored answer appends a solver record with
`isCorrect = true`, bumps the user's score by exactly 1, stamps
`latestQuizDate` with the (non-null) current time, and answers
`success, isCorrect = true, newScore = prior score + 1`. -/
theorem solve_correct_updates (db : DB) (d uid raw : String) (now : Nat)
    (p : Problem) (u : User)
    (hv : isValidObjectId uid = true)
    (hp : findOneProblem db d = some p)
    (hu : findUserById db uid = some u)
    (hns : (p.solvers.any fun s => s.userId == u._id) = false)
    (hans : jsParseInt raw = some p.answer) :
    solve db d uid raw now =
      (.ok true (u.score + 1),
       updateUserById
         (updateProblemByDate db d
           { p with solvers := p.solvers ++ [⟨u._id, u.name, true, now⟩] })
         uid
         { u with score := u.score + 1, latestQuizDate := some now }) ∧
    findUserById (solve db d uid raw now).2 uid =
      some { u with score := u.score + 1, latestQuizDate := some now } ∧
    findOneProblem (solve db d uid raw now).2 d =
      some { p with solvers := p.solvers ++ [⟨u._id, u.name, true, now⟩] } := by
  have hj : judge p.answer raw = true := by
    unfold judge
    rw [hans]
    simp
  have hid : u._id = uid := findUserById_id hu
  have hdate : p.date = d := findOneProblem_date hp
  have h1 : solve db d uid raw now =
      (.ok true (u.score + 1),
       updateUserById
         (updateProblemByDate db d
           { p with solvers := p.solvers ++ [⟨u._id, u.name, true, now⟩] })
         uid
         { u with score := u.score + 1, latestQuizDate := some now }) := by
    unfold solve
    rw [hv, hp, hu]
    simp only [hns, hj, Bool.false_eq_true, if_false, if_true]
  refine ⟨h1, ?_, ?_⟩
  · rw [h1]
    exact find?_update_by_id db.users uid u
      { u with score := u.score + 1, latestQuizDate := some now } hu hid
  · rw [h1]
    exact find?_update_by_date db.problems d p
      { p with solvers := p.solvers ++ [⟨u._id, u.name, true, now⟩] } hp hdate

/-- Closed instance of `solve_correct_updates`: the spec's own scenario,
quiz dated 2025-01-01 with answer 7 and a score-0 user submitting 7. -/
theorem solve_correct_updates_witness :
    solve wDB "2025-01-01" "aaaaaaaaaaaaaaaaaaaaaaaa" "7" 100 =
      (.ok true 1,
       ⟨[⟨"aaaaaaaaaaaaaaaaaaaaaaaa", "u1", "Kim", none, false, 1, some 100⟩],
        [⟨"2025-01-01", "3+4=?", 7,
          [⟨"aaaaaaaaaaaaaaaaaaaaaaaa", "Kim", true, 100⟩]⟩]⟩) := by
  have h := (solve_correct_updates wDB "2025-01-01"
    "aaaaaaaaaaaaaaaaaaaaaaaa" "7" 100 wProblem wUser
    (by decide) (by decide) (by decide) (by decide) (by decide)).1
  rw [h]
  decide

/-- C3: a first-time solve by an existing user with a submission parsing
unequal to the stored answer appends a solver record with
`isCorrect = false`, leaves every user record (score, `latestQuizDate`
and all other fields) untouched, and answers
`success, isCorrect = false, newScore = the unchanged score`; the quiz
changes only by the appended record. -/
theorem solve_incorrect_updates (db : DB) (d uid raw : String) (now : Nat)
    (p : Problem) (u : User)
    (hv : isValidObjectId uid = true)
    (hp : findOneProblem db d = some p)
    (hu : findUserById db uid = some u)
    (hns : (p.solvers.any fun s => s.userId == u._id) = false)
    (hans : jsParseInt raw ≠ some p.answer) :
    solve db d uid raw now =
      (.ok false u.score,
       updateProblemByDate db d
         { p with solvers := p.solvers ++ [⟨u._id, u.name, false, now⟩] }) ∧
    (solve db d uid raw now).2.users = db.users ∧
    findOneProblem (solve db d uid raw now).2 d =
      some { p with solvers := p.solvers ++ [⟨u._id, u.name, false, now⟩] } := by
  have hj : judge p.answer raw = false := by
    unfold judge
    rcases hq : jsParseInt raw with _ | n
    · rfl
    · simp only [beq_eq_false_iff_ne, ne_eq, Option.some.injEq]
      intro he
      exact hans (by rw [hq, he])
  have hdate : p.date = d := findOneProblem_date hp
  have h1 : solve db d uid raw now =
      (.ok false u.score,
       updateProblemByDate db d
         { p with solvers := p.solvers ++ [⟨u._id, u.name, false, now⟩] }) := by
    unfold solve
    rw [hv, hp, hu]
    simp [hns, hj]
  refine ⟨h1, ?_, ?_⟩
  · rw [h1]
    rfl
  · rw [h1]
    exact find?_update_by_date db.problems d p
      { p with solvers := p.solvers ++ [⟨u._id, u.name, false, now⟩] } hp
      hdate

/-- Closed instance of `solve_incorrect_updates`: the spec's own
scenario, submitting 3 against stored answer 7. -/
theorem solve_incorrect_updates_witness :
    solve wDB "2025-01-01" "aaaaaaaaaaaaaaaaaaaaaaaa" "3" 100 =
      (.ok false 0,
       ⟨[wUser],
        [⟨"2025-01-01", "3+4=?", 7,
          [⟨"aaaaaaaaaaaaaaaaaaaaaaaa", "Kim", false, 100⟩]⟩]⟩) := by
  have h := (solve_incorrect_updates wDB "2025-01-01"
    "aaaaaaaaaaaaaaaaaaaaaaaa" "3" 100 wProblem wUser
    (by decide) (by decide) (by decide) (by decide) (by decide)).1
  rw [h]
  decide

/-- A new solver record for a user not yet in the list keeps the
one-record-per-user-id property of every stored quiz. -/
theorem nodup_after_append (db : DB) (d : String) (problem : Problem)
    (user : User) (h : SolversNodup db)
    (hpp : findOneProblem db d = some problem)
    (hguard : (problem.solvers.any fun s => s.userId == user._id) = false)
    (isC : Bool) (now : Nat) :
    ∀ q ∈ db.problems.map fun q0 =>
        if q0.date == d then
          { problem with
              solvers := problem.solvers ++ [⟨user._id, user.name, isC, now⟩] }
        else q0,
      (q.solvers.map SolverRec.userId).Nodup := by
  intro q hq
  rw [List.mem_map] at hq
  obtain ⟨q0, hq0, hq0e⟩ := hq
  by_cases hd : (q0.date == d) = true
  · rw [if_pos hd] at hq0e
    subst hq0e
    simp only [List.map_append, List.map_cons, List.map_nil]
    rw [List.nodup_append]
    refine ⟨h problem (findOneProblem_mem hpp), List.nodup_singleton _, ?_⟩
    intro a ha hb
    simp only [List.mem_singleton] at hb
    subst hb
    rw [List.mem_map] at ha
    obtain ⟨s, hs, hse⟩ := ha
    rw [List.any_eq_false] at hguard
    exact absurd (by simpa [beq_iff_eq] using hse) (by simpa using hguard s hs)
  · rw [if_neg hd] at hq0e
    subst hq0e
    exact h q0 hq0

/-- The solve route preserves the one-record-per-user-id invariant. -/
theorem solve_preserves_nodup (db : DB) (d uid raw : String) (now : Nat)
    (h : SolversNodup db) : SolversNodup (solve db d uid raw now).2 := by
  unfold solve
  split
  · split
    · rename_i problem user hpp huu
      split
      · exact h
      · rename_i hguard
        cases hc : judge problem.answer raw with
        | true =>
          simp only [hc, if_true]
          exact nodup_after_append db d problem user h hpp
            (by simpa using hguard) true now
        | false =>
          simp only [hc, Bool.false_eq_true, if_false]
          exact nodup_after_append db d problem user h hpp
            (by simpa using hguard) false now
    · exact h
  · exact h

/-- The create-quiz route preserves the one-record-per-user-id invariant
(a fresh quiz starts with an empty `solvers` list). -/
theorem createProblem_preserves_nodup (db : DB) (d? q? : Option String)
    (a? : Option Int) (h : SolversNodup db) :
    SolversNodup (createProblem db d? q? a?).2 := by
  unfold createProblem
  split
  · split
    · split
      · exact h
      · intro p hp
        rw [List.mem_append] at hp
        rcases hp with hp | hp
        · exact h p hp
        · rw [List.mem_singleton] at hp
          subst hp
          simp
    · exact h
  · exact h

/-- Registering a user (when it succeeds or fails) leaves the quiz
collection alone. -/
theorem loginCreate_problems (db : DB) (nu : User) :
    ((match createUser db nu with
      | .error m => (LoginResult.serverError m, db)
      | .ok db' => (LoginResult.okUser (sanitize nu), db')).2).problems =
      db.problems := by
  rcases h : createUser db nu with m | db'
  · rfl
  · unfold createUser at h
    split at h
    · exact absurd h (by simp)
    · cases h
      rfl

/-- Login touches only the user collection. -/
theorem login_problems_unchanged (db : DB) (n? : Option String) (i : Bool)
    (now : Nat) (nid : String) :
    ((login db n? i now nid).2).problems = db.problems := by
  unfold login
  split
  · rfl
  · split
    · rfl
    · split
      · rfl
      · exact loginCreate_problems db _

/-- C2: a solve by a user who already appears in the quiz's `solvers`
fails with the already-solved error and changes nothing (no record
appended, no score changed); consequently solve, create-quiz and login
each preserve the invariant that a quiz's `solvers` list holds at most
one record per distinct user id. -/
theorem solve_idempotency_guard_and_invariant (db : DB) :
    (∀ (d uid raw : String) (now : Nat) (p : Problem) (u : User),
        isValidObjectId uid = true →
        findOneProblem db d = some p →
        findUserById db uid = some u →
        (p.solvers.any fun s => s.userId == u._id) = true →
        solve db d uid raw now = (.alreadySolved, db)) ∧
    (SolversNodup db →
      (∀ (d uid raw : String) (now : Nat),
          SolversNodup (solve db d uid raw now).2) ∧
      (∀ (d? q? : Option String) (a? : Option Int),
          SolversNodup (createProblem db d? q? a?).2) ∧
      (∀ (n? : Option String) (i : Bool) (now : Nat) (nid : String),
          SolversNodup (login db n? i now nid).2)) := by
  constructor
  · intro d uid raw now p u hv hp hu hs
    unfold solve
    rw [hv, hp, hu]
    simp [hs]
  · intro h
    refine ⟨fun d uid raw now => solve_preserves_nodup db d uid raw now h,
            fun d? q? a? => createProblem_preserves_nodup db d? q? a? h,
            fun n? i now nid => ?_⟩
    unfold SolversNodup
    rw [login_problems_unchanged]
    exact h

/-- Closed instance of `solve_idempotency_guard_and_invariant`: on `wDB2`
(whose quiz was already solved by the stored user), a second attempt
fails with already-solved and leaves the state unchanged, and a solve
on the same state keeps the invariant. -/
theorem solve_idempotency_guard_and_invariant_witness :
    solve wDB2 "2025-01-02" "aaaaaaaaaaaaaaaaaaaaaaaa" "2" 99 =
      (.alreadySolved, wDB2) ∧
    SolversNodup (solve wDB2 "2025-01-02" "aaaaaaaaaaaaaaaaaaaaaaaa" "2" 99).2 :=
  ⟨(solve_idempotency_guard_and_invariant wDB2).1 "2025-01-02"
      "aaaaaaaaaaaaaaaaaaaaaaaa" "2" 99 wProblemSolved wUser
      (by decide) (by decide) (by decide) (by decide),
   ((solve_idempotency_guard_and_invariant wDB2).2 (by decide)).1
      "2025-01-02" "aaaaaaaaaaaaaaaaaaaaaaaa" "2" 99⟩

/-- C5 counterexample: all three fields are present (`date`, `question`,
and the integer answer 0), yet the create-quiz validation rejects the
request — JS falsiness (`!answer`) treats the integer 0 like a missing
field, contradicting the claim that presence of all three fields always
passes validation. -/
theorem createProblem_zero_answer_rejected :
    createProblem ⟨[], []⟩ (some "2025-01-01") (some "Q") (some 0) =
      (.badRequest, ⟨[], []⟩) := by decide

/-- C5 amended: create-quiz fails with a validation error iff at least
one of the three fields is missing or JS-falsy (absent or `""` for
`date`/`question`; absent or `0` for `answer`); whenever all three are
truthy the validation passes and insertion is attempted (the result is a
conflict or a created quiz).  A validation failure leaves the state
unchanged. -/
theorem createProblem_validation (db : DB) (d? q? : Option String)
    (a? : Option Int) :
    ((createProblem db d? q? a?).1 = .badRequest ↔
      (truthyStr d? && truthyStr q? && truthyInt a?) = false) ∧
    ((truthyStr d? && truthyStr q? && truthyInt a?) = true →
      (createProblem db d? q? a?).1 = .conflict ∨
      ∃ p, (createProblem db d? q? a?).1 = .created p) ∧
    ((createProblem db d? q? a?).1 = .badRequest →
      (createProblem db d? q? a?).2 = db) := by
  rcases d? with _ | d
  · simp [createProblem, truthyStr]
  rcases q? with _ | q
  · simp [createProblem, truthyStr]
  rcases a? with _ | a
  · simp [createProblem, truthyStr, truthyInt]
  by_cases hd : d = ""
  · subst hd
    simp [createProblem, truthyStr]
  by_cases hq : q = ""
  · subst hq
    simp [createProblem, truthyStr, hd]
  by_cases ha : a = 0
  · subst ha
    simp [createProblem, truthyStr, truthyInt, hd, hq]
  have ht : (truthyStr (some d) && truthyStr (some q) && truthyInt (some a))
      = true := by
    simp [truthyStr, truthyInt, hd, hq, ha]
  unfold createProblem
  rw [ht]
  simp only [if_true]
  by_cases hc : (db.problems.any fun p => p.date == d) = true
  · simp [hc]
  · simp [hc]

/-- Closed instance of `createProblem_validation`: a request missing its
`date` field is rejected by validation and leaves the state unchanged. -/
theorem createProblem_validation_witness :
    (createProblem ⟨[], []⟩ none (some "Q") (some 5)).1 = .badRequest ∧
    (createProblem ⟨[], []⟩ none (some "Q") (some 5)).2 = ⟨[], []⟩ :=
  ⟨(createProblem_validation ⟨[], []⟩ none (some "Q") (some 5)).1.mpr
      (by decide),
   (createProblem_validation ⟨[], []⟩ none (some "Q") (some 5)).2.2
      ((createProblem_validation ⟨[], []⟩ none (some "Q") (some 5)).1.mpr
        (by decide))⟩

/-- C6: a create-quiz call for a date that already has a stored quiz
fails with the conflict error and leaves the state — in particular the
already-stored quiz with its date, question, answer and solvers —
unmodified. -/
theorem createProblem_conflict (db : DB) (d q : String) (a : Int)
    (p : Problem)
    (hd : d ≠ "") (hq : q ≠ "") (ha : a ≠ 0)
    (hp : findOneProblem db d = some p) :
    createProblem db (some d) (some q) (some a) = (.conflict, db) ∧
    findOneProblem (createProblem db (some d) (some q) (some a)).2 d =
      some p := by
  have hex : (db.problems.any fun p0 => p0.date == d) = true := by
    rw [List.any_eq_true]
    exact ⟨p, findOneProblem_mem hp, by simp [findOneProblem_date hp]⟩
  have h1 : createProblem db (some d) (some q) (some a) = (.conflict, db) := by
    unfold createProblem
    have ht : (truthyStr (some d) && truthyStr (some q) && truthyInt (some a))
        = true := by
      simp [truthyStr, truthyInt, hd, hq, ha]
    rw [ht]
    simp [hex]
  exact ⟨h1, by rw [h1]; exact hp⟩

/-- Closed instance of `createProblem_conflict`: re-creating the
2025-01-01 quiz of `wDB` fails with a conflict and the stored quiz is
still found unchanged. -/
theorem createProblem_conflict_witness :
    createProblem wDB (some "2025-01-01") (some "other?") (some 9) =
      (.conflict, wDB) ∧
    findOneProblem
        (createProblem wDB (some "2025-01-01") (some "other?") (some 9)).2
        "2025-01-01" = some wProblem :=
  createProblem_conflict wDB "2025-01-01" "other?" 9 wProblem
    (by decide) (by decide) (by decide) (by decide)

/-- A successful `User.create` appends the new user. -/
theorem createUser_ok (db : DB) (nu : User) (db' : DB)
    (h : createUser db nu = .ok db') :
    db' = { db with users := db.users ++ [nu] } := by
  unfold createUser at h
  split at h
  · exact absurd h (by simp)
  · cases h
    rfl

/-- Appending a user whose name was absent makes the name lookup find
exactly that user. -/
theorem findOneByName_append (db : DB) (nu : User) (name : String)
    (hf : findOneByName db name = none) (hn : nu.name = name) :
    findOneByName { db with users := db.users ++ [nu] } name = some nu := by
  unfold findOneByName at hf ⊢
  rw [find?_append_of_none _ _ _ hf]
  simp [List.find?_cons, hn]

/-- Login on a name that is already registered returns that user
sanitized and leaves the state untouched. -/
theorem login_found (db : DB) (name : String) (u : User)
    (hn : name ≠ "") (hf : findOneByName db name = some u)
    (init : Bool) (now : Nat) (nid : String) :
    login db (some name) init now nid = (.okUser (sanitize u), db) := by
  simp only [login]
  rw [if_neg hn, hf]

/-- Login on an unregistered name reduces to registering the new user
determined by the admin-bootstrap condition. -/
theorem login_create (db : DB) (name : String) (init : Bool) (now : Nat)
    (nid : String) (nu : User)
    (hn : name ≠ "") (hf : findOneByName db name = none)
    (hnu : nu = if name = "관리자" ∧ init = true then
        ⟨nid, "1234aa", name, some "wj211@", true, 0, none⟩
      else ⟨nid, name ++ toString now, name, none, false, 0, none⟩) :
    login db (some name) init now nid =
      match createUser db nu with
      | .error m => (.serverError m, db)
      | .ok db' => (.okUser (sanitize nu), db') := by
  subst hnu
  simp only [login]
  rw [if_neg hn, hf]

/-- C7: a second login with the same (non-empty) name returns the very
same sanitized user — same id, same (unaltered) score — and leaves the
state unchanged: no second user record is created. -/
theorem login_idempotent (db db1 : DB) (name : String) (init1 init2 : Bool)
    (now1 now2 : Nat) (id1 id2 : String) (u1 : SanUser)
    (hn : name ≠ "")
    (h1 : login db (some name) init1 now1 id1 = (.okUser u1, db1)) :
    login db1 (some name) init2 now2 id2 = (.okUser u1, db1) := by
  rcases hf : findOneByName db name with _ | u
  · rw [login_create db name init1 now1 id1 _ hn hf rfl] at h1
    generalize hnu : (if name = "관리자" ∧ init1 = true then
        (⟨id1, "1234aa", name, some "wj211@", true, 0, none⟩ : User)
      else ⟨id1, name ++ toString now1, name, none, false, 0, none⟩) = nu at h1
    have hname : nu.name = name := by
      rw [← hnu]
      by_cases hadm : name = "관리자" ∧ init1 = true <;> simp [hadm]
    rcases hc : createUser db nu with m | db'
    · rw [hc] at h1
      exact absurd h1 (by simp)
    · rw [hc] at h1
      simp only [LoginResult.okUser.injEq, Prod.mk.injEq] at h1
      obtain ⟨hu1, hdb1⟩ := h1
      rw [← hdb1, ← hu1]
      have hdb' := createUser_ok db nu db' hc
      rw [hdb']
      exact login_found _ name nu hn
        (findOneByName_append db nu name hf hname) init2 now2 id2
  · have hthis := login_found db name u hn hf init1 now1 id1
    rw [h1] at hthis
    simp only [LoginResult.okUser.injEq, Prod.mk.injEq] at hthis
    obtain ⟨hu1, hdb1⟩ := hthis
    rw [hu1, hdb1]
    exact login_found db name u hn hf init2 now2 id2

/-- Closed instance of `login_idempotent`: a first login for `bob` on an
empty store creates the user; the second login returns the same id and
score 0 without touching the state. -/
theorem login_idempotent_witness :
    login wDBbob (some "bob") false 6 "cccccccccccccccccccccccc" =
      (.okUser (sanitize wBobUser), wDBbob) :=
  login_idempotent ⟨[], []⟩ wDBbob "bob" false false 5 6
    "bbbbbbbbbbbbbbbbbbbbbbbb" "cccccccccccccccccccccccc"
    (sanitize wBobUser) (by decide) (by decide)

/-- The seeded admin account, for the leaderboard witness. -/
def wAdmin : User :=
  ⟨"cccccccccccccccccccccccc", "1234aa", "관리자", some "wj211@", true, 3, none⟩

/-- A second ordinary user with a higher score and a recorded solve
time. -/
def wUser2 : User :=
  ⟨"dddddddddddddddddddddddd", "u2", "Lee", none, false, 2, some 40⟩

/-- An admin plus two ordinary users, for the leaderboard witness. -/
def wDB3 : DB := ⟨[wAdmin, wUser, wUser2], []⟩

/-- C8: the leaderboard returns exactly the users with `isAdmin = false`
(never an admin), arranged so that consecutive entries satisfy the
score-descending, `latestQuizDate`-ascending-on-ties order, and every
returned record is sanitized (the `password` field is stripped — the
result type `SanUser` has no such field). -/
theorem getUsers_leaderboard (db : DB) :
    getUsers db = (leaderboardUsers db).map sanitize ∧
    (leaderboardUsers db).Perm (db.users.filter fun u => u.isAdmin == false) ∧
    (∀ u ∈ leaderboardUsers db, u.isAdmin = false) ∧
    List.Sorted LbLE (leaderboardUsers db) := by
  refine ⟨rfl, List.perm_insertionSort LbLE _, ?_,
    List.sorted_insertionSort LbLE _⟩
  intro u hu
  have hm : u ∈ db.users.filter fun u => u.isAdmin == false :=
    (List.perm_insertionSort LbLE _).mem_iff.mp hu
  have := List.of_mem_filter hm
  simpa using this

/-- Closed instance of `getUsers_leaderboard` on `wDB3`: the stored
ordinary user is confirmed non-admin via its leaderboard membership, the
sort order holds, and the computed leaderboard places Lee (score 2)
before Kim (score 0) and omits the admin. -/
theorem getUsers_leaderboard_witness :
    wUser.isAdmin = false ∧
    List.Sorted LbLE (leaderboardUsers wDB3) ∧
    getUsers wDB3 = [sanitize wUser2, sanitize wUser] :=
  ⟨(getUsers_leaderboard wDB3).2.2.1 wUser (by decide),
   (getUsers_leaderboard wDB3).2.2.2,
   by decide⟩
